import Mathlib

/-!
Verification of the data-consistency core of the Event Management System
(`src/main.py`).  The `Database` class keeps an in-memory cache of every
MySQL table and implements cascading deletion, payment confirmation, a
capacity guard for ticket creation, and three-tier fallback queries.
Rows are embedded as Lean structures (one per table, field names as in the
SQL schema), table state as lists of rows, and each method of `Database`
(plus the admission check of `EventManagementApp.add_ticket`) as a pure
function over that state.  External storage behaviour (connection loss,
missing server-side routines) is passed in as explicit outcome parameters.
Timestamps (`CURDATE()`, `datetime.now()`) and auto-generated surrogate ids
are not modelled; no claim depends on them.
-/

namespace EMS

/-- Row of the `Organizer` table. -/
structure Organizer where
  Organizer_id : Int
  Name : String
  Contact : String
  Email : String
deriving DecidableEq

/-- Row of the `Venue` table. -/
structure Venue where
  Venue_id : Int
  Name : String
  Location : String
  Capacity : Int
deriving DecidableEq

/-- Row of the `Event` table.  The source column `Type` is rendered
`EType` because `Type` is a Lean keyword. -/
structure Event where
  Event_id : Int
  Name : String
  EType : String
  Date : String
  Time : String
  Venue_id : Int
  Organizer_id : Int
deriving DecidableEq

/-- Row of the `Participants` table. -/
structure Participant where
  Participant_id : Int
  Name : String
  Email : String
  Contact : String
deriving DecidableEq

/-- Row of the `Ticket` table.  `Status` is the literal string stored in
the database (`"Pending"`, `"Confirmed"`, `"Cancelled"`); the source
compares it against string literals.  `Price` (SQL DECIMAL) is embedded as
`Int`; no claim performs arithmetic on prices. -/
structure Ticket where
  Ticket_id : Int
  Event_id : Int
  Participant_id : Int
  Status : String
  Price : Int
deriving DecidableEq

/-- Row of the `Payment` table.  `confirm_payment` inserts rows giving only
`Ticket_id`, `Amount`, `Method` (the id auto-increments and `Date` is
`CURDATE()`), and every read of the table in the modelled code matches on
`Ticket_id` only, so the auto id and date columns are omitted. -/
structure Payment where
  Ticket_id : Int
  Amount : Int
  Method : String
deriving DecidableEq

/-- Row of the `Sponsor` table. -/
structure Sponsor where
  Sponsor_id : Int
  Name : String
  Event_id : Int
  Contribution : Int
deriving DecidableEq

/-- Row of the `Volunteers` table.  Source column `Type` rendered `VType`. -/
structure Volunteer where
  Volunteer_id : Int
  Name : String
  Email : String
  Contact : String
  VType : String
  Event_id : Int
deriving DecidableEq

/-- Row of the `users` table. -/
structure User where
  User_id : Int
  Username : String
  Password : String
  Fullname : String
  Email : String
  Role : String
deriving DecidableEq

/-- Entry of the `Log` table / the in-memory `Database.logs` list.  Only
the message is modelled; the timestamp is wall-clock time. -/
structure LogEntry where
  Log_Message : String
deriving DecidableEq

/-- The authoritative database state: one list of rows per table, in row
order, plus the deletion log.  After every committed write the source
reloads its in-memory cache wholesale from these tables
(`refresh_all_data`), so outside of `refresh_all_data` itself this state
also describes the cache. -/
structure DbState where
  organizers : List Organizer := []
  venues : List Venue := []
  participants : List Participant := []
  events : List Event := []
  sponsors : List Sponsor := []
  volunteers : List Volunteer := []
  tickets : List Ticket := []
  payments : List Payment := []
  users : List User := []
  logs : List LogEntry := []
deriving DecidableEq

/-- The log message built by `Database.log_event_deletion`
(`f"Event {event_id} ({event_name}) was deleted. Volunteers may need re-assignment."`). -/
def deletionLogMessage (event_id : Int) (event_name : String) : String :=
  "Event " ++ toString event_id ++ " (" ++ event_name ++
    ") was deleted. Volunteers may need re-assignment."

/-- `Database.log_event_deletion`: inserts the deletion message into the
`Log` table (via `execute_query`, which commits on its own) and appends it
to the in-memory log list.  The insert is a separate transaction from the
deletion cascade that follows it. -/
def log_event_deletion (db : DbState) (event_id : Int) (event_name : String) : DbState :=
  { db with logs := db.logs ++ [⟨deletionLogMessage event_id event_name⟩] }

/-- One DELETE statement issued by the cascade in `Database.delete_event`,
tagged by target table. -/
inductive DeleteStmt where
  | payment (ticket_id : Int)
  | ticket (event_id : Int)
  | volunteer (event_id : Int)
  | sponsor (event_id : Int)
  | event (event_id : Int)
deriving DecidableEq

/-- The ticket ids selected by `delete_event` step 1
(`SELECT Ticket_id FROM Ticket WHERE Event_id=%s`), in row order. -/
def eventTicketIds (db : DbState) (event_id : Int) : List Int :=
  (db.tickets.filter (fun t => t.Event_id == event_id)).map (fun t => t.Ticket_id)

/-- The DELETE statements of the cascade in `Database.delete_event`, in
issue order: one payment delete per selected ticket, then tickets,
volunteers, sponsors, and finally the event row. -/
def cascadeStmts (db : DbState) (event_id : Int) : List DeleteStmt :=
  (eventTicketIds db event_id).map DeleteStmt.payment ++
    [DeleteStmt.ticket event_id, DeleteStmt.volunteer event_id,
     DeleteStmt.sponsor event_id, DeleteStmt.event event_id]

/-- Combined effect of the committed cascade: payments of the selected
tickets removed, then all tickets, volunteers, sponsors and the event row
with the given event id removed. -/
def applyCascade (db : DbState) (event_id : Int) : DbState :=
  let tids := eventTicketIds db event_id
  { db with
    payments := db.payments.filter (fun p => !(tids.contains p.Ticket_id))
    tickets := db.tickets.filter (fun t => !(t.Event_id == event_id))
    volunteers := db.volunteers.filter (fun v => !(v.Event_id == event_id))
    sponsors := db.sponsors.filter (fun s => !(s.Event_id == event_id))
    events := db.events.filter (fun e => !(e.Event_id == event_id)) }

/-- `Database.delete_event`.  First `log_event_deletion` runs (its insert
commits separately).  Then the cascade statements are issued on one
uncommitted transaction.  `failAt = some k` means the k-th cascade
statement raises a storage `Error`: the source's exception handler calls
`connection.rollback()`, undoing every uncommitted delete, and returns
`False`.  `failAt = none` (or an index past the last statement) means the
cascade runs to completion and commits.  Returns the success flag, the
resulting state, and the cascade statements actually issued. -/
def delete_event (db : DbState) (event_id : Int) (event_name : String)
    (failAt : Option Nat) : Bool × DbState × List DeleteStmt :=
  let logged := log_event_deletion db event_id event_name
  let stmts := cascadeStmts db event_id
  match failAt with
  | some k =>
    if k < stmts.length then
      (false, logged, stmts.take k)
    else
      (true, applyCascade logged event_id, stmts)
  | none => (true, applyCascade logged event_id, stmts)

/-- Filtering by a predicate after filtering by its negation yields
nothing. -/
theorem filter_not_filter_self {α : Type} (l : List α) (p : α → Bool) :
    (l.filter (fun x => !(p x))).filter p = [] := by
  induction l with
  | nil => rfl
  | cons a l ih =>
    by_cases h : p a = true
    · simp [List.filter, h, ih]
    · simp only [Bool.not_eq_true] at h
      simp [List.filter, h, ih]

/-- Claim C1: after a successful `delete_event(event_id)` no Ticket,
Payment of a ticket of that event, Volunteer or Sponsor row referencing the
event id remains, the Event row itself is gone, and the deletions are
issued in the order Payments, then Tickets, then Volunteers, then
Sponsors, then the Event. -/
theorem delete_event_cascade_complete (db : DbState) (event_id : Int) (event_name : String) :
    (delete_event db event_id event_name none).1 = true ∧
    ((delete_event db event_id event_name none).2.1.tickets.filter
      (fun t => t.Event_id == event_id)) = [] ∧
    ((delete_event db event_id event_name none).2.1.payments.filter
      (fun p => (eventTicketIds db event_id).contains p.Ticket_id)) = [] ∧
    ((delete_event db event_id event_name none).2.1.volunteers.filter
      (fun v => v.Event_id == event_id)) = [] ∧
    ((delete_event db event_id event_name none).2.1.sponsors.filter
      (fun s => s.Event_id == event_id)) = [] ∧
    ((delete_event db event_id event_name none).2.1.events.filter
      (fun e => e.Event_id == event_id)) = [] ∧
    (delete_event db event_id event_name none).2.2 =
      (eventTicketIds db event_id).map DeleteStmt.payment ++
        [DeleteStmt.ticket event_id, DeleteStmt.volunteer event_id,
         DeleteStmt.sponsor event_id, DeleteStmt.event event_id] := by
  refine ⟨rfl, ?_, ?_, ?_, ?_, ?_, rfl⟩
  · exact filter_not_filter_self db.tickets (fun t => t.Event_id == event_id)
  · have h := filter_not_filter_self db.payments
      (fun p => (eventTicketIds db event_id).contains p.Ticket_id)
    simp only [delete_event, applyCascade, log_event_deletion, eventTicketIds] at h ⊢
    exact h
  · exact filter_not_filter_self db.volunteers (fun v => v.Event_id == event_id)
  · exact filter_not_filter_self db.sponsors (fun s => s.Event_id == event_id)
  · exact filter_not_filter_self db.events (fun e => e.Event_id == event_id)

/-- Claim C2: if any cascade step of `delete_event` fails, the rollback
leaves every table exactly as before the call, while the log entry written
before the cascade (a separately committed insert) survives:
deletion intent stays logged even though the deletion failed. -/
theorem delete_event_rollback_preserves_state (db : DbState) (event_id : Int)
    (event_name : String) (k : Nat) (hk : k < (cascadeStmts db event_id).length) :
    (delete_event db event_id event_name (some k)).1 = false ∧
    (delete_event db event_id event_name (some k)).2.1.organizers = db.organizers ∧
    (delete_event db event_id event_name (some k)).2.1.venues = db.venues ∧
    (delete_event db event_id event_name (some k)).2.1.participants = db.participants ∧
    (delete_event db event_id event_name (some k)).2.1.events = db.events ∧
    (delete_event db event_id event_name (some k)).2.1.sponsors = db.sponsors ∧
    (delete_event db event_id event_name (some k)).2.1.volunteers = db.volunteers ∧
    (delete_event db event_id event_name (some k)).2.1.tickets = db.tickets ∧
    (delete_event db event_id event_name (some k)).2.1.payments = db.payments ∧
    (delete_event db event_id event_name (some k)).2.1.logs =
      db.logs ++ [⟨deletionLogMessage event_id event_name⟩] := by
  simp [delete_event, log_event_deletion, if_pos hk]

/-- Witness for C2: a database holding one event with a ticket, a payment,
a volunteer and a sponsor; the cascade fails at its very first statement
and everything is still there afterwards, with the deletion logged. -/
def dbC2 : DbState :=
  { venues := [⟨1, "Hall", "Town", 100⟩]
    organizers := [⟨1, "Org", "123", "o@x.com"⟩]
    events := [⟨10, "Expo", "Fair", "2025-01-01", "10:00", 1, 1⟩]
    participants := [⟨1, "Pat", "p@x.com", "456"⟩]
    tickets := [⟨100, 10, 1, "Confirmed", 50⟩]
    payments := [⟨100, 50, "Cash"⟩]
    volunteers := [⟨7, "Vol", "v@x.com", "789", "Setup", 10⟩]
    sponsors := [⟨3, "Spon", 10, 1000⟩] }

theorem delete_event_rollback_witness :
    0 < (cascadeStmts dbC2 10).length ∧
    (delete_event dbC2 10 "Expo" (some 0)).1 = false ∧
    (delete_event dbC2 10 "Expo" (some 0)).2.1.tickets = dbC2.tickets ∧
    (delete_event dbC2 10 "Expo" (some 0)).2.1.payments = dbC2.payments ∧
    (delete_event dbC2 10 "Expo" (some 0)).2.1.logs =
      [⟨deletionLogMessage 10 "Expo"⟩] := by
  have h := delete_event_rollback_preserves_state dbC2 10 "Expo" 0 (by decide)
  refine ⟨by decide, h.1, h.2.2.2.2.2.2.2.1, h.2.2.2.2.2.2.2.2.1, ?_⟩
  have hl := h.2.2.2.2.2.2.2.2.2
  simpa using hl

/-- `UPDATE Ticket SET Status=%s WHERE Ticket_id=%s`: every row with the
given ticket id gets the new status, all other rows are untouched. -/
def setTicketStatus (db : DbState) (ticket_id : Int) (status : String) : DbState :=
  { db with
    tickets := db.tickets.map
      (fun t => if t.Ticket_id == ticket_id then { t with Status := status } else t) }

/-- The stored procedure `SP_ConfirmPayment` (its SQL text is in the
source, lines 219-233): unconditionally `INSERT INTO Payment
(Ticket_id, Amount, Method, Date) VALUES (.., CURDATE())`, then
`UPDATE Ticket SET Status='Confirmed' WHERE Ticket_id=..`, then
`SELECT CONCAT('Ticket ', id, ' confirmed and payment recorded.')`.
No not-found, Cancelled, capacity or duplicate-payment check of any
kind; a missing ticket id still gets a Payment row inserted while the
UPDATE touches zero rows. -/
def sp_confirm_payment (db : DbState) (ticket_id : Int) (payment_method : String)
    (amount : Int) : String × DbState :=
  ("Ticket " ++ toString ticket_id ++ " confirmed and payment recorded.",
    setTicketStatus
      { db with payments := db.payments ++ [⟨ticket_id, amount, payment_method⟩] }
      ticket_id "Confirmed")

/-- `Database.confirm_payment`, manual implementation (lines 624-653),
reached when the stored-procedure call raises a storage `Error` (routine
absent, constraint rejection, connection trouble).  `next(...)` over the
cached ticket and payment lists is `List.find?`.  Returns the
user-visible message and the resulting state. -/
def confirm_payment_fallback (db : DbState) (ticket_id : Int) (payment_method : String)
    (amount : Int) : String × DbState :=
  match db.tickets.find? (fun t => t.Ticket_id == ticket_id) with
  | none => ("Error: Ticket " ++ toString ticket_id ++ " not found", db)
  | some ticket =>
    if ticket.Status == "Cancelled" then
      ("Error: Cannot process payment for cancelled ticket " ++ toString ticket_id, db)
    else
      match db.payments.find? (fun p => p.Ticket_id == ticket_id) with
      | some _ =>
        if ticket.Status == "Pending" then
          ("Ticket " ++ toString ticket_id ++ " confirmed. Payment already on record.",
            setTicketStatus db ticket_id "Confirmed")
        else
          ("Error: Payment already exists for ticket " ++ toString ticket_id, db)
      | none =>
        ("Ticket " ++ toString ticket_id ++ " confirmed and payment recorded.",
          setTicketStatus
            { db with payments := db.payments ++ [⟨ticket_id, amount, payment_method⟩] }
            ticket_id "Confirmed")

/-- `Database.confirm_payment` (lines 608-653): the stored procedure
`SP_ConfirmPayment` is invoked first; `sp_ok = true` means that call
executed and committed, in which case the procedure's unconditional
semantics apply.  Only when the call raises a storage `Error`
(`sp_ok = false`) does the manual fallback run. -/
def confirm_payment (db : DbState) (ticket_id : Int) (payment_method : String)
    (amount : Int) (sp_ok : Bool) : String × DbState :=
  if sp_ok then sp_confirm_payment db ticket_id payment_method amount
  else confirm_payment_fallback db ticket_id payment_method amount

/-- A database whose only ticket is cancelled. -/
def dbC4 : DbState :=
  { tickets := [⟨7, 10, 1, "Cancelled", 25⟩] }

/-- Counterexample to claim C4: with the stored procedure installed and
executing, `confirm_payment` on a nonexistent ticket does not report
NotFound — it inserts a dangling Payment row and reports success — and on
a Cancelled ticket it inserts a Payment and flips the status to
Confirmed instead of rejecting without mutation. -/
theorem confirm_payment_sp_ignores_preconditions :
    (DbState.tickets {}) = [] ∧
    (confirm_payment {} 5 "Cash" 10 true).1 =
      "Ticket 5 confirmed and payment recorded." ∧
    (confirm_payment {} 5 "Cash" 10 true).2.payments = [⟨5, 10, "Cash"⟩] ∧
    (confirm_payment dbC4 7 "Cash" 10 true).1 =
      "Ticket 7 confirmed and payment recorded." ∧
    (confirm_payment dbC4 7 "Cash" 10 true).2.payments = [⟨7, 10, "Cash"⟩] ∧
    (confirm_payment dbC4 7 "Cash" 10 true).2.tickets =
      [⟨7, 10, 1, "Confirmed", 25⟩] := by
  refine ⟨?_, ?_, ?_, ?_, ?_, ?_⟩ <;> decide

/-- Claim C4 as amended: the NotFound and Cancelled precondition failures
are enforced only by the manual fallback, i.e. when the stored-procedure
call fails: then a nonexistent ticket yields the not-found message and a
Cancelled ticket the cannot-pay message, both without creating a payment
or touching any status.  When `SP_ConfirmPayment` executes it applies no
precondition: it appends a Payment row unconditionally. -/
theorem confirm_payment_notfound_and_cancelled (db : DbState) (ticket_id : Int)
    (payment_method : String) (amount : Int) :
    ((∀ t ∈ db.tickets, t.Ticket_id ≠ ticket_id) →
      confirm_payment db ticket_id payment_method amount false =
        ("Error: Ticket " ++ toString ticket_id ++ " not found", db)) ∧
    (∀ t, db.tickets.find? (fun x => x.Ticket_id == ticket_id) = some t →
      t.Status = "Cancelled" →
      confirm_payment db ticket_id payment_method amount false =
        ("Error: Cannot process payment for cancelled ticket " ++ toString ticket_id, db)) ∧
    (confirm_payment db ticket_id payment_method amount true).2.payments =
      db.payments ++ [⟨ticket_id, amount, payment_method⟩] := by
  refine ⟨?_, ?_, rfl⟩
  · intro h
    have hfind : db.tickets.find? (fun x => x.Ticket_id == ticket_id) = none := by
      rw [List.find?_eq_none]
      intro t ht
      simpa using h t ht
    simp [confirm_payment, confirm_payment_fallback, hfind]
  · intro t hfind hst
    simp [confirm_payment, confirm_payment_fallback, hfind, hst]

/-- Witness for the amended C4: under a failing stored-procedure call an
empty database yields the not-found message and a cancelled-only database
the cancelled-ticket message, both leaving the state unchanged. -/
theorem confirm_payment_notfound_and_cancelled_witness :
    confirm_payment {} 5 "Cash" 10 false = ("Error: Ticket 5 not found", {}) ∧
    confirm_payment dbC4 7 "Cash" 10 false =
      ("Error: Cannot process payment for cancelled ticket 7", dbC4) := by
  constructor
  · exact (confirm_payment_notfound_and_cancelled {} 5 "Cash" 10).1 (by decide)
  · exact (confirm_payment_notfound_and_cancelled dbC4 7 "Cash" 10).2.1
      ⟨7, 10, 1, "Cancelled", 25⟩ (by decide) rfl

/-- Looking a ticket id up after a status update finds the updated row:
the update preserves ticket ids, so the first match is the old first match
with its status replaced. -/
theorem find?_setTicketStatus (l : List Ticket) (ticket_id : Int) (s : String) :
    (l.map (fun t => if t.Ticket_id == ticket_id then { t with Status := s } else t)).find?
        (fun t => t.Ticket_id == ticket_id) =
      (l.find? (fun t => t.Ticket_id == ticket_id)).map
        (fun t => { t with Status := s }) := by
  induction l with
  | nil => rfl
  | cons a l ih =>
    by_cases h : (a.Ticket_id == ticket_id) = true
    · have hfa : (if (a.Ticket_id == ticket_id) = true
          then { a with Status := s } else a) = { a with Status := s } := if_pos h
      rw [List.map_cons, hfa,
        @List.find?_cons_of_pos Ticket (fun t => t.Ticket_id == ticket_id)
          { a with Status := s } _ h,
        @List.find?_cons_of_pos Ticket (fun t => t.Ticket_id == ticket_id) a _ h]
      rfl
    · have hfa : (if (a.Ticket_id == ticket_id) = true
          then { a with Status := s } else a) = a := if_neg h
      rw [List.map_cons, hfa,
        @List.find?_cons_of_neg Ticket (fun t => t.Ticket_id == ticket_id) a _ h,
        @List.find?_cons_of_neg Ticket (fun t => t.Ticket_id == ticket_id) a _ h, ih]

/-- After `setTicketStatus`, every row carrying the updated ticket id has
the new status. -/
theorem setTicketStatus_mem_status (db : DbState) (ticket_id : Int) (s : String) :
    ∀ x ∈ (setTicketStatus db ticket_id s).tickets,
      x.Ticket_id = ticket_id → x.Status = s := by
  intro x hx hid
  simp only [setTicketStatus, List.mem_map] at hx
  obtain ⟨t', _, rfl⟩ := hx
  by_cases h : t'.Ticket_id == ticket_id
  · simp [h]
  · rw [if_neg h] at hid ⊢
    exact absurd hid (by simpa using h)

/-- A Pending ticket with a payment already on record. -/
def dbC6 : DbState :=
  { tickets := [⟨5, 10, 1, "Pending", 20⟩]
    payments := [⟨5, 20, "Cash"⟩] }

/-- Counterexample to claim C6: with the stored procedure installed and
executing, `confirm_payment` on the Pending ticket that already has a
payment on record inserts a duplicate Payment row and reports "payment
recorded" rather than the idempotent re-confirmation, and the repeated
call inserts a third row instead of reporting that the payment already
exists. -/
theorem confirm_payment_sp_duplicates_payment :
    (dbC6.payments.find? (fun p => p.Ticket_id == 5)).isSome = true ∧
    (dbC6.tickets.find? (fun x => x.Ticket_id == 5)).map (fun t => t.Status) =
      some "Pending" ∧
    (confirm_payment dbC6 5 "Card" 20 true).2.payments =
      [⟨5, 20, "Cash"⟩, ⟨5, 20, "Card"⟩] ∧
    (confirm_payment dbC6 5 "Card" 20 true).1 =
      "Ticket 5 confirmed and payment recorded." ∧
    (confirm_payment (confirm_payment dbC6 5 "Card" 20 true).2 5 "Card" 20 true).2.payments =
      [⟨5, 20, "Cash"⟩, ⟨5, 20, "Card"⟩, ⟨5, 20, "Card"⟩] ∧
    (confirm_payment (confirm_payment dbC6 5 "Card" 20 true).2 5 "Card" 20 true).1 =
      "Ticket 5 confirmed and payment recorded." := by
  refine ⟨?_, ?_, ?_, ?_, ?_, ?_⟩ <;> decide

/-- Claim C6 as amended: idempotence holds only of the manual fallback.
When the stored-procedure call fails, a Pending ticket with a payment
already on record is flipped to Confirmed without inserting a duplicate
row, and a repeated call reports that the payment already exists without
mutating anything.  When `SP_ConfirmPayment` executes, each call inserts
another Payment row for the ticket regardless of the existing one. -/
theorem confirm_payment_idempotent (db : DbState) (ticket_id : Int)
    (payment_method : String) (amount : Int) (t : Ticket)
    (hfind : db.tickets.find? (fun x => x.Ticket_id == ticket_id) = some t)
    (hst : t.Status = "Pending")
    (hpay : (db.payments.find? (fun p => p.Ticket_id == ticket_id)).isSome = true) :
    confirm_payment db ticket_id payment_method amount false =
      ("Ticket " ++ toString ticket_id ++ " confirmed. Payment already on record.",
        setTicketStatus db ticket_id "Confirmed") ∧
    (setTicketStatus db ticket_id "Confirmed").payments = db.payments ∧
    (∀ x ∈ (setTicketStatus db ticket_id "Confirmed").tickets,
      x.Ticket_id = ticket_id → x.Status = "Confirmed") ∧
    confirm_payment (setTicketStatus db ticket_id "Confirmed") ticket_id
        payment_method amount false =
      ("Error: Payment already exists for ticket " ++ toString ticket_id,
        setTicketStatus db ticket_id "Confirmed") ∧
    (confirm_payment db ticket_id payment_method amount true).2.payments =
      db.payments ++ [⟨ticket_id, amount, payment_method⟩] := by
  obtain ⟨p, hp⟩ := Option.isSome_iff_exists.mp hpay
  refine ⟨by simp [confirm_payment, confirm_payment_fallback, hfind, hst, hp], rfl,
    setTicketStatus_mem_status db ticket_id "Confirmed", ?_, rfl⟩
  have h2 : (setTicketStatus db ticket_id "Confirmed").tickets.find?
      (fun x => x.Ticket_id == ticket_id) = some { t with Status := "Confirmed" } := by
    simp only [setTicketStatus]
    rw [find?_setTicketStatus, hfind]
    rfl
  have h3 : (setTicketStatus db ticket_id "Confirmed").payments.find?
      (fun p => p.Ticket_id == ticket_id) = some p := hp
  simp [confirm_payment, confirm_payment_fallback, h2, h3]

/-- Witness for the amended C6 at the concrete database `dbC6`, with the
stored-procedure call failing on both calls. -/
theorem confirm_payment_idempotent_witness :
    confirm_payment dbC6 5 "Card" 20 false =
      ("Ticket 5 confirmed. Payment already on record.",
        setTicketStatus dbC6 5 "Confirmed") ∧
    (setTicketStatus dbC6 5 "Confirmed").payments = dbC6.payments ∧
    confirm_payment (setTicketStatus dbC6 5 "Confirmed") 5 "Card" 20 false =
      ("Error: Payment already exists for ticket 5",
        setTicketStatus dbC6 5 "Confirmed") := by
  have h := confirm_payment_idempotent dbC6 5 "Card" 20 ⟨5, 10, 1, "Pending", 20⟩
    (by decide) rfl (by decide)
  exact ⟨h.1, h.2.1, h.2.2.2.1⟩

/-- Database refuting claim C5: a Confirmed ticket with no payment row on
record. -/
def dbC5 : DbState :=
  { tickets := [⟨5, 10, 1, "Confirmed", 10⟩] }

/-- Counterexample to claim C5: the claim says a ticket in terminal state
Confirmed never gets a new Payment row from `confirm_payment`, but for a
Confirmed ticket with no payment on record the code creates one and
reports success, on the manual fallback and the stored-procedure path
alike. -/
theorem confirmed_ticket_accepts_payment :
    (dbC5.tickets.find? (fun x => x.Ticket_id == 5)).map (fun t => t.Status) =
      some "Confirmed" ∧
    dbC5.payments = [] ∧
    (confirm_payment dbC5 5 "Cash" 10 false).2.payments = [⟨5, 10, "Cash"⟩] ∧
    (confirm_payment dbC5 5 "Cash" 10 false).1 =
      "Ticket 5 confirmed and payment recorded." ∧
    (confirm_payment dbC5 5 "Cash" 10 true).2.payments = [⟨5, 10, "Cash"⟩] ∧
    (confirm_payment dbC5 5 "Cash" 10 true).1 =
      "Ticket 5 confirmed and payment recorded." :=
  ⟨rfl, rfl, rfl, rfl, rfl, rfl⟩

/-- Claim C5 as amended: on the manual fallback path (stored-procedure
call failed) `confirm_payment` never pays a Cancelled ticket and reports
a Confirmed ticket with a payment on record as already paid without
mutation, but a Confirmed ticket with no payment on record does accept a
payment — a new Payment row is appended while the status stays Confirmed.
When `SP_ConfirmPayment` executes, the terminal states offer no
protection at all: a Payment row is appended and the status is set to
Confirmed unconditionally. -/
theorem confirm_payment_terminal_behavior (db : DbState) (ticket_id : Int)
    (payment_method : String) (amount : Int) (t : Ticket)
    (hfind : db.tickets.find? (fun x => x.Ticket_id == ticket_id) = some t) :
    (t.Status = "Cancelled" →
      confirm_payment db ticket_id payment_method amount false =
        ("Error: Cannot process payment for cancelled ticket " ++ toString ticket_id,
          db)) ∧
    (t.Status = "Confirmed" →
      ((db.payments.find? (fun p => p.Ticket_id == ticket_id)).isSome = true →
        confirm_payment db ticket_id payment_method amount false =
          ("Error: Payment already exists for ticket " ++ toString ticket_id, db)) ∧
      (db.payments.find? (fun p => p.Ticket_id == ticket_id) = none →
        (confirm_payment db ticket_id payment_method amount false).2.payments =
          db.payments ++ [⟨ticket_id, amount, payment_method⟩] ∧
        (∀ x ∈ (confirm_payment db ticket_id payment_method amount false).2.tickets,
          x.Ticket_id = ticket_id → x.Status = "Confirmed"))) ∧
    (confirm_payment db ticket_id payment_method amount true).2.payments =
      db.payments ++ [⟨ticket_id, amount, payment_method⟩] ∧
    (∀ x ∈ (confirm_payment db ticket_id payment_method amount true).2.tickets,
      x.Ticket_id = ticket_id → x.Status = "Confirmed") := by
  refine ⟨?_, ?_, rfl, ?_⟩
  · intro hst
    simp [confirm_payment, confirm_payment_fallback, hfind, hst]
  · intro hst
    constructor
    · intro hpay
      obtain ⟨p, hp⟩ := Option.isSome_iff_exists.mp hpay
      simp [confirm_payment, confirm_payment_fallback, hfind, hst, hp]
    · intro hnone
      have hres : (confirm_payment db ticket_id payment_method amount false).2 =
          setTicketStatus
            { db with payments := db.payments ++ [⟨ticket_id, amount, payment_method⟩] }
            ticket_id "Confirmed" := by
        simp [confirm_payment, confirm_payment_fallback, hfind, hst, hnone]
      rw [hres]
      exact ⟨rfl, setTicketStatus_mem_status _ ticket_id "Confirmed"⟩
  · exact setTicketStatus_mem_status
      { db with payments := db.payments ++ [⟨ticket_id, amount, payment_method⟩] }
      ticket_id "Confirmed"

/-- Confirmed ticket together with its payment row, for the already-paid
branch of the amended C5. -/
def dbC5b : DbState :=
  { tickets := [⟨5, 10, 1, "Confirmed", 10⟩]
    payments := [⟨5, 10, "Cash"⟩] }

/-- Witness for the amended C5: concrete instances of the three fallback
branches (cancelled rejection, already-paid rejection, payment accepted
by a Confirmed ticket without a payment row) and of the unconditional
stored-procedure insertion. -/
theorem confirm_payment_terminal_behavior_witness :
    confirm_payment dbC4 7 "Cash" 10 false =
      ("Error: Cannot process payment for cancelled ticket 7", dbC4) ∧
    confirm_payment dbC5b 5 "Card" 10 false =
      ("Error: Payment already exists for ticket 5", dbC5b) ∧
    (confirm_payment dbC5 5 "Cash" 10 false).2.payments =
      dbC5.payments ++ [⟨5, 10, "Cash"⟩] ∧
    (confirm_payment dbC5b 5 "Card" 10 true).2.payments =
      dbC5b.payments ++ [⟨5, 10, "Card"⟩] := by
  refine ⟨?_, ?_, ?_, ?_⟩
  · exact (confirm_payment_terminal_behavior dbC4 7 "Cash" 10
      ⟨7, 10, 1, "Cancelled", 25⟩ (by decide)).1 rfl
  · exact (((confirm_payment_terminal_behavior dbC5b 5 "Card" 10
      ⟨5, 10, 1, "Confirmed", 10⟩ (by decide)).2.1 rfl).1 (by decide))
  · exact ((((confirm_payment_terminal_behavior dbC5 5 "Cash" 10
      ⟨5, 10, 1, "Confirmed", 10⟩ (by decide)).2.1 rfl).2 (by decide))).1
  · exact (confirm_payment_terminal_behavior dbC5b 5 "Card" 10
      ⟨5, 10, 1, "Confirmed", 10⟩ (by decide)).2.2.1

/-- `COUNT(*) FROM Ticket WHERE Event_id=? AND Status='Confirmed'` — the
formula shared verbatim by the server function
`FN_GetTotalConfirmedTickets`, the direct COUNT query, and the cached
comprehension in the source. -/
def confirmedCount (db : DbState) (event_id : Int) : Int :=
  ((db.tickets.filter
    (fun t => t.Event_id == event_id && t.Status == "Confirmed")).length : Int)

/-- Tier 1 of `get_available_capacity`: the server function
`FN_GetAvailableCapacity` (its SQL text is in the source dump).  A
`SELECT ... INTO` over the Event-Venue join leaves the capacity variable
NULL when the event or its venue does not resolve, and NULL minus the sold
count is NULL, so the function returns NULL (`none`) exactly in that
case. -/
def fn_get_available_capacity (db : DbState) (event_id : Int) : Option Int :=
  match db.events.find? (fun e => e.Event_id == event_id) with
  | none => none
  | some e =>
    match db.venues.find? (fun v => v.Venue_id == e.Venue_id) with
    | none => none
    | some v => some (v.Capacity - confirmedCount db event_id)

/-- Tier 2 of `get_available_capacity`: the direct Event-Venue join with a
LEFT JOIN on Confirmed tickets, grouped by capacity — one row when event
and venue resolve, no rows otherwise. -/
def query_available_capacity (db : DbState) (event_id : Int) : List Int :=
  match db.events.find? (fun e => e.Event_id == event_id) with
  | none => []
  | some e =>
    match db.venues.find? (fun v => v.Venue_id == e.Venue_id) with
    | none => []
    | some v => [v.Capacity - confirmedCount db event_id]

/-- Tier 3 of `get_available_capacity` (lines 598-606): the cached
computation, returning 0 when the event or its venue cannot be resolved. -/
def cached_available_capacity (db : DbState) (event_id : Int) : Int :=
  match db.events.find? (fun e => e.Event_id == event_id) with
  | none => 0
  | some e =>
    match db.venues.find? (fun v => v.Venue_id == e.Venue_id) with
    | none => 0
    | some v => v.Capacity - confirmedCount db event_id

/-- `Database.get_available_capacity`: tier 1 answers when its query
executed (`t1ok`) and produced a non-NULL value (the source checks
`result[0]['capacity'] is not None`); tier 2 answers when its query
executed (`t2ok`) and returned at least one row (`if result:`); otherwise
the cached computation answers.  For both tiers a storage failure —
whether `execute_query` swallows the mysql `Error` and hands back `[]` or
an exception escapes to the `except: pass` — falls through identically,
so one Bool per tier captures availability. -/
def get_available_capacity (auth cache : DbState) (t1ok t2ok : Bool)
    (event_id : Int) : Int :=
  match (if t1ok then fn_get_available_capacity auth event_id else none) with
  | some c => c
  | none =>
    match (if t2ok then query_available_capacity auth event_id else []).head? with
    | some c => c
    | none => cached_available_capacity cache event_id

/-- Tier 1 of `get_organizer_name`: the server function
`FN_GetOrganizerName`, which returns the matching name or NULL. -/
def fn_get_organizer_name (db : DbState) (organizer_id : Int) : Option String :=
  (db.organizers.find? (fun o => o.Organizer_id == organizer_id)).map (fun o => o.Name)

/-- Tier 2 of `get_organizer_name`:
`SELECT Name FROM Organizer WHERE Organizer_id=%s`, all matching rows in
row order (the source reads `result[0]`). -/
def query_organizer_name (db : DbState) (organizer_id : Int) : List String :=
  (db.organizers.filter (fun o => o.Organizer_id == organizer_id)).map (fun o => o.Name)

/-- Tier 3 of `get_organizer_name` (lines 757-759): the cached lookup with
sentinel `"Unknown"`. -/
def cached_organizer_name (db : DbState) (organizer_id : Int) : String :=
  match db.organizers.find? (fun o => o.Organizer_id == organizer_id) with
  | some o => o.Name
  | none => "Unknown"

/-- Tiers 2-3 of `Database.get_organizer_name`: the direct query answers
when it executed and its first row's name is truthy
(`if result and result[0]['Name']:`), i.e. nonempty; otherwise the cache
answers. -/
def get_organizer_name_tier2 (auth cache : DbState) (t2ok : Bool)
    (organizer_id : Int) : String :=
  match (if t2ok then query_organizer_name auth organizer_id else []).head? with
  | some s => if s == "" then cached_organizer_name cache organizer_id else s
  | none => cached_organizer_name cache organizer_id

/-- `Database.get_organizer_name`: tier 1 answers when the routine call
executed and its value is truthy (`if result and result[0]['name']:` —
non-NULL and nonempty); both storage failure modes fall through, as for
capacity. -/
def get_organizer_name (auth cache : DbState) (t1ok t2ok : Bool)
    (organizer_id : Int) : String :=
  match (if t1ok then fn_get_organizer_name auth organizer_id else none) with
  | some s =>
    if s == "" then get_organizer_name_tier2 auth cache t2ok organizer_id else s
  | none => get_organizer_name_tier2 auth cache t2ok organizer_id

/-- How the tier-2 COUNT query of `get_total_confirmed_tickets` ends.
Unlike the other two tiered readers, its code reads
`return result[0]['count'] if result else 0`, so the two storage failure
modes diverge: a mysql `Error` swallowed inside `execute_query` yields the
empty list and hence the literal 0 (`errEmpty`), while an exception that
escapes `execute_query` reaches the cached fallback (`raised`). -/
inductive QueryOutcome where
  | ok
  | errEmpty
  | raised
deriving DecidableEq

/-- `Database.get_total_confirmed_tickets`: the tier-1 server function
always returns a non-NULL count, so whenever its call executes (`t1ok`)
its value is returned; both tier-1 failure modes fall through.  Tier 2
behaves per `QueryOutcome`. -/
def get_total_confirmed_tickets (auth cache : DbState) (t1ok : Bool)
    (t2 : QueryOutcome) (event_id : Int) : Int :=
  if t1ok then confirmedCount auth event_id
  else
    match t2 with
    | .ok => confirmedCount auth event_id
    | .errEmpty => 0
    | .raised => confirmedCount cache event_id

/-- The first row a filter keeps is the first match. -/
theorem head?_filter {α : Type} (l : List α) (p : α → Bool) :
    (l.filter p).head? = l.find? p := by
  induction l with
  | nil => rfl
  | cons a l ih =>
    by_cases h : p a = true
    · simp [List.filter_cons, List.find?_cons, h]
    · have hb : p a = false := by simpa using h
      simp [List.filter_cons, List.find?_cons, hb, ih]

/-- A snapshot with one venue of capacity 5, one event, one Confirmed
ticket. -/
def dbC9 : DbState :=
  { venues := [⟨1, "V", "L", 5⟩]
    organizers := [⟨1, "Org", "1", "o"⟩]
    events := [⟨10, "E", "Fair", "2025-01-01", "10:00", 1, 1⟩]
    tickets := [⟨100, 10, 1, "Confirmed", 50⟩] }

/-- Counterexample to claim C9: on one fixed snapshot holding one
Confirmed ticket, `get_total_confirmed_tickets` returns 1 when tier 1
answers, 1 when tier 2 executes, 1 when the cached tier answers — but 0
when tier 1 is unavailable and the tier-2 COUNT query dies with a storage
`Error` that `execute_query` converts to an empty row list: the source
then runs `result[0]['count'] if result else 0`.  The value is not the
same across serving conditions, so tier equivalence fails for
`confirmedTicketCount`. -/
theorem confirmed_count_tier_inequivalence :
    get_total_confirmed_tickets dbC9 dbC9 true QueryOutcome.ok 10 = 1 ∧
    get_total_confirmed_tickets dbC9 dbC9 false QueryOutcome.ok 10 = 1 ∧
    get_total_confirmed_tickets dbC9 dbC9 false QueryOutcome.raised 10 = 1 ∧
    get_total_confirmed_tickets dbC9 dbC9 false QueryOutcome.errEmpty 10 = 0 := by
  refine ⟨?_, ?_, ?_, ?_⟩ <;> decide

/-- Claim C9 as amended: on a fixed snapshot, `availableCapacity` and
`organizerName` do return the same value under every tier-availability
configuration (and `availableCapacity` is venue capacity minus the
Confirmed-ticket count, or 0 when the event or venue cannot be resolved);
`confirmedTicketCount` returns the snapshot's count under every
configuration except the one where tier 1 is unavailable and the tier-2
query fails with a swallowed storage `Error`, in which case it returns 0
instead of falling through to the cache. -/
theorem tier_equivalence_amended (snap : DbState) (event_id organizer_id : Int)
    (t1ok t2ok t1c : Bool) (t2c : QueryOutcome)
    (h2 : t2c ≠ QueryOutcome.errEmpty) :
    get_available_capacity snap snap t1ok t2ok event_id =
      cached_available_capacity snap event_id ∧
    get_organizer_name snap snap t1ok t2ok organizer_id =
      cached_organizer_name snap organizer_id ∧
    get_total_confirmed_tickets snap snap t1c t2c event_id =
      confirmedCount snap event_id ∧
    (snap.events.find? (fun e => e.Event_id == event_id) = none →
      cached_available_capacity snap event_id = 0) ∧
    (∀ e, snap.events.find? (fun e => e.Event_id == event_id) = some e →
      snap.venues.find? (fun v => v.Venue_id == e.Venue_id) = none →
      cached_available_capacity snap event_id = 0) ∧
    (∀ e v, snap.events.find? (fun e => e.Event_id == event_id) = some e →
      snap.venues.find? (fun v => v.Venue_id == e.Venue_id) = some v →
      cached_available_capacity snap event_id =
        v.Capacity - confirmedCount snap event_id) := by
  refine ⟨?_, ?_, ?_, ?_, ?_, ?_⟩
  · cases he : snap.events.find? (fun e => e.Event_id == event_id) with
    | none =>
      cases t1ok <;> cases t2ok <;>
        simp [get_available_capacity, fn_get_available_capacity,
          query_available_capacity, cached_available_capacity, he]
    | some e =>
      cases hv : snap.venues.find? (fun v => v.Venue_id == e.Venue_id) with
      | none =>
        cases t1ok <;> cases t2ok <;>
          simp [get_available_capacity, fn_get_available_capacity,
            query_available_capacity, cached_available_capacity, he, hv]
      | some v =>
        cases t1ok <;> cases t2ok <;>
          simp [get_available_capacity, fn_get_available_capacity,
            query_available_capacity, cached_available_capacity, he, hv]
  · have hq : (query_organizer_name snap organizer_id).head? =
        (snap.organizers.find? (fun o => o.Organizer_id == organizer_id)).map
          (fun o => o.Name) := by
      rw [query_organizer_name, List.head?_map, head?_filter]
    cases ho : snap.organizers.find? (fun o => o.Organizer_id == organizer_id) with
    | none =>
      rw [ho] at hq
      cases t1ok <;> cases t2ok <;>
        simp [get_organizer_name, get_organizer_name_tier2,
          fn_get_organizer_name, cached_organizer_name, ho, hq]
    | some o =>
      rw [ho] at hq
      by_cases hs : (o.Name == "") = true
      · cases t1ok <;> cases t2ok <;>
          simp [get_organizer_name, get_organizer_name_tier2,
            fn_get_organizer_name, cached_organizer_name, ho, hq, hs]
      · have hb : (o.Name == "") = false := by simpa using hs
        cases t1ok <;> cases t2ok <;>
          simp [get_organizer_name, get_organizer_name_tier2,
            fn_get_organizer_name, cached_organizer_name, ho, hq, hb]
  · cases t1c with
    | true => rfl
    | false =>
      cases t2c with
      | ok => rfl
      | errEmpty => exact absurd rfl h2
      | raised => rfl
  · intro he
    simp [cached_available_capacity, he]
  · intro e he hv
    simp [cached_available_capacity, he, hv]
  · intro e v he hv
    simp [cached_available_capacity, he, hv]

/-- Witness for the amended C9 at a concrete snapshot: every allowed
configuration of `get_total_confirmed_tickets` yields the cached count,
and both other readers agree with their cached formulas. -/
theorem tier_equivalence_amended_witness :
    get_available_capacity dbC9 dbC9 true false 10 =
      cached_available_capacity dbC9 10 ∧
    get_organizer_name dbC9 dbC9 false true 1 = cached_organizer_name dbC9 1 ∧
    get_total_confirmed_tickets dbC9 dbC9 false QueryOutcome.raised 10 =
      confirmedCount dbC9 10 ∧
    QueryOutcome.raised ≠ QueryOutcome.errEmpty := by
  have h := tier_equivalence_amended dbC9 10 1 true false false QueryOutcome.raised
    (by decide)
  have h' := tier_equivalence_amended dbC9 10 1 false true false QueryOutcome.raised
    (by decide)
  exact ⟨h.1, h'.2.1, h.2.2.1, by decide⟩

/-- Tiers 1 and 2 of the capacity reader compute the same partial answer:
the direct query's row list is the server function's optional value. -/
theorem query_available_capacity_eq_toList (db : DbState) (event_id : Int) :
    query_available_capacity db event_id =
      (fn_get_available_capacity db event_id).toList := by
  rw [query_available_capacity, fn_get_available_capacity]
  cases he : db.events.find? (fun e => e.Event_id == event_id) with
  | none => rfl
  | some e =>
    cases hv : db.venues.find? (fun v => v.Venue_id == e.Venue_id) with
    | none => simp [hv]
    | some v => simp [hv]

/-- Authoritative state for the C8 counterexample: empty — organizer 42
and event 99 do not exist. -/
def authC8 : DbState := {}

/-- Stale cache for the C8 counterexample: it still holds organizer 42 and
event 99 with its capacity-7 venue. -/
def cacheC8 : DbState :=
  { organizers := [⟨42, "Stale", "c", "e"⟩]
    venues := [⟨1, "V", "L", 7⟩]
    events := [⟨99, "E", "T", "2025-01-01", "10:00", 1, 1⟩] }

/-- Counterexample to claim C8: with tiers 1 and 2 both executing
(`t1ok = t2ok = true`), organizer 42 does not exist in authoritative
state, so tier 1 returns NULL and tier 2 returns no rows — a legitimate
"not found".  The code does not treat that as the final answer: it falls
through to the cache and returns the stale name, and likewise returns the
stale capacity 7 for the deleted event 99 instead of the authoritative
"not found" result. -/
theorem notfound_falls_through_to_cache :
    fn_get_organizer_name authC8 42 = none ∧
    query_organizer_name authC8 42 = [] ∧
    get_organizer_name authC8 cacheC8 true true 42 = "Stale" ∧
    fn_get_available_capacity authC8 99 = none ∧
    query_available_capacity authC8 99 = [] ∧
    get_available_capacity authC8 cacheC8 true true 99 = 7 := by
  refine ⟨?_, ?_, ?_, ?_, ?_, ?_⟩ <;> decide

/-- Claim C8 as amended: tier 3 is reached not only when tiers 1 and 2
fail to execute but also when they execute and report "not found" (a NULL
organizer name, an empty capacity result set): such results fall through,
so under every availability configuration the final answer is the cached
tier's. -/
theorem tier3_reached_on_notfound (auth cache : DbState)
    (organizer_id event_id : Int) :
    (fn_get_organizer_name auth organizer_id = none →
      ∀ t1ok t2ok : Bool, get_organizer_name auth cache t1ok t2ok organizer_id =
        cached_organizer_name cache organizer_id) ∧
    (fn_get_available_capacity auth event_id = none →
      ∀ t1ok t2ok : Bool, get_available_capacity auth cache t1ok t2ok event_id =
        cached_available_capacity cache event_id) := by
  constructor
  · intro hfn t1ok t2ok
    have ho : auth.organizers.find? (fun o => o.Organizer_id == organizer_id) = none := by
      by_contra hne
      obtain ⟨o, ho⟩ := Option.ne_none_iff_exists'.mp hne
      simp [fn_get_organizer_name, ho] at hfn
    have hq : query_organizer_name auth organizer_id = [] := by
      rw [query_organizer_name, List.map_eq_nil_iff, List.filter_eq_nil_iff]
      intro o hmem
      have := List.find?_eq_none.mp ho o hmem
      simpa using this
    cases t1ok <;> cases t2ok <;>
      simp [get_organizer_name, get_organizer_name_tier2, hfn, hq]
  · intro hfn t1ok t2ok
    have hq : query_available_capacity auth event_id = [] := by
      rw [query_available_capacity_eq_toList, hfn]
      rfl
    cases t1ok <;> cases t2ok <;>
      simp [get_available_capacity, hfn, hq]

/-- Witness for the amended C8 at the concrete stale-cache scenario. -/
theorem tier3_reached_on_notfound_witness :
    get_organizer_name authC8 cacheC8 true true 42 =
      cached_organizer_name cacheC8 42 ∧
    get_available_capacity authC8 cacheC8 true true 99 =
      cached_available_capacity cacheC8 99 := by
  have h := tier3_reached_on_notfound authC8 cacheC8 42 99
  exact ⟨h.1 (by decide) true true, h.2 (by decide) true true⟩

/-- Database for the C3 counterexample: a venue of capacity 1 hosting
event 10, with two Pending tickets and no payments yet. -/
def dbC3 : DbState :=
  { venues := [⟨1, "Hall", "Town", 1⟩]
    organizers := [⟨1, "Org", "1", "o"⟩]
    events := [⟨10, "Expo", "Fair", "2025-01-01", "10:00", 1, 1⟩]
    participants := [⟨1, "P1", "p1", "1"⟩, ⟨2, "P2", "p2", "2"⟩]
    tickets := [⟨100, 10, 1, "Pending", 50⟩, ⟨101, 10, 2, "Pending", 50⟩] }

/-- Counterexample to claim C3: venue capacity C = 1.  The first payment
confirmation fills the venue (available capacity 0).  The claim says the
(C+1)-th = 2nd sequential confirmation attempt is rejected, but
`confirm_payment` checks no capacity on either path — the stored
procedure's UPDATE does not fire the BEFORE INSERT trigger, and the
manual fallback produces the identical result at these inputs — so the
2nd confirmation succeeds and the Confirmed-ticket count reaches
2 > C (available capacity -1). -/
theorem capacity_exceeded_by_confirm_payment :
    confirm_payment dbC3 100 "Cash" 50 true = confirm_payment dbC3 100 "Cash" 50 false ∧
    cached_available_capacity (confirm_payment dbC3 100 "Cash" 50 true).2 10 = 0 ∧
    (confirm_payment (confirm_payment dbC3 100 "Cash" 50 true).2 101 "Cash" 50 true).1 =
      "Ticket 101 confirmed and payment recorded." ∧
    confirm_payment (confirm_payment dbC3 100 "Cash" 50 true).2 101 "Cash" 50 true =
      confirm_payment (confirm_payment dbC3 100 "Cash" 50 true).2 101 "Cash" 50 false ∧
    confirmedCount
      (confirm_payment (confirm_payment dbC3 100 "Cash" 50 true).2
        101 "Cash" 50 true).2 10 = 2 ∧
    cached_available_capacity
      (confirm_payment (confirm_payment dbC3 100 "Cash" 50 true).2
        101 "Cash" 50 true).2 10 = -1 := by
  refine ⟨?_, ?_, ?_, ?_, ?_, ?_⟩ <;> decide

/-- The admission check of `EventManagementApp.add_ticket`
(lines 1774-1788): reject on nonpositive price (`check_ticket_price`
raises), then reject when available capacity is exhausted and the new
ticket's status is Confirmed, else insert the ticket row.  The capacity
probe is the tiered `get_available_capacity` with the cache equal to the
authoritative state (the app refreshes the cache after every committed
write). -/
def app_add_ticket (db : DbState) (t1ok t2ok : Bool) (tk : Ticket) : Option DbState :=
  if tk.Price ≤ 0 then none
  else if get_available_capacity db db t1ok t2ok tk.Event_id ≤ 0 ∧ tk.Status = "Confirmed"
    then none
  else some { db with tickets := db.tickets ++ [tk] }

/-- Claim C3 as amended: only ticket creation is capacity-guarded —
creating a ticket with status Confirmed is rejected whenever the available
capacity is not positive, under every tier configuration of the capacity
probe; payment confirmation performs no capacity check, so the (C+1)-th
sequential payment confirmation of a Pending ticket is not rejected and
pushes the Confirmed count past C. -/
theorem add_ticket_capacity_guard (db : DbState) (t1ok t2ok : Bool) (tk : Ticket)
    (hcap : get_available_capacity db db t1ok t2ok tk.Event_id ≤ 0)
    (hst : tk.Status = "Confirmed") :
    app_add_ticket db t1ok t2ok tk = none := by
  unfold app_add_ticket
  by_cases hp : tk.Price ≤ 0
  · rw [if_pos hp]
  · rw [if_neg hp, if_pos ⟨hcap, hst⟩]

/-- Witness for the amended C3: adding a Confirmed ticket to the full
event 10 of `dbC3` after the first confirmation is rejected. -/
theorem add_ticket_capacity_guard_witness :
    get_available_capacity (confirm_payment dbC3 100 "Cash" 50 true).2
      (confirm_payment dbC3 100 "Cash" 50 true).2 true true 10 ≤ 0 ∧
    app_add_ticket (confirm_payment dbC3 100 "Cash" 50 true).2 true true
      ⟨102, 10, 2, "Confirmed", 50⟩ = none := by
  refine ⟨by decide, ?_⟩
  exact add_ticket_capacity_guard (confirm_payment dbC3 100 "Cash" 50 true).2 true true
    ⟨102, 10, 2, "Confirmed", 50⟩ (by decide) rfl

/-- Outcome of one `SELECT * FROM <table>` issued by `refresh_all_data`
through `execute_query`.  On a caught mysql `Error`, `execute_query`
returns the empty list for a fetching query, so from the caller's side a
failure is exactly an empty row list (`failure`); `success rows` is a
completed fetch. -/
inductive FetchResult (α : Type) where
  | failure : FetchResult α
  | success : List α → FetchResult α
deriving DecidableEq

/-- The row list `execute_query` hands back for this fetch: the rows on
success, `[]` on failure. -/
def FetchResult.toRows {α : Type} : FetchResult α → List α
  | .failure => []
  | .success rows => rows

/-- One fetch outcome per table for a single `refresh_all_data` run. -/
structure FetchOutcomes where
  organizersF : FetchResult Organizer
  venuesF : FetchResult Venue
  participantsF : FetchResult Participant
  eventsF : FetchResult Event
  sponsorsF : FetchResult Sponsor
  volunteersF : FetchResult Volunteer
  ticketsF : FetchResult Ticket
  paymentsF : FetchResult Payment
  usersF : FetchResult User
  logsF : FetchResult LogEntry

/-- `Database.refresh_all_data` (lines 77-99): every entity table is
assigned `self.execute_query("SELECT * FROM <table>", fetch=True) or []`,
i.e. the fetched rows, with `[]` both for an empty table and for a failed
fetch.  Only the in-memory log list differs: it is reassigned just when
the log fetch returned a nonempty row list (`if logs_data:`), otherwise
the previous log list is kept.  (A non-mysql exception escaping
`execute_query` would instead abort the whole refresh; that mode is not
modelled.) -/
def refresh_all_data (cache : DbState) (f : FetchOutcomes) : DbState :=
  { organizers := f.organizersF.toRows
    venues := f.venuesF.toRows
    participants := f.participantsF.toRows
    events := f.eventsF.toRows
    sponsors := f.sponsorsF.toRows
    volunteers := f.volunteersF.toRows
    tickets := f.ticketsF.toRows
    payments := f.paymentsF.toRows
    users := f.usersF.toRows
    logs := if f.logsF.toRows.isEmpty then cache.logs else f.logsF.toRows }

/-- All ten per-table fetches fail. -/
def allFetchesFail : FetchOutcomes :=
  ⟨.failure, .failure, .failure, .failure, .failure,
   .failure, .failure, .failure, .failure, .failure⟩

/-- Counterexample to claim C7: the cache knows one organizer and one
ticket; every per-table fetch of the reload fails; the claim says each
table's previous snapshot is retained, but the reload replaces the
organizer and ticket snapshots with empty collections — known-good cached
data is erased. -/
theorem refresh_clears_on_failure :
    dbC6.tickets ≠ [] ∧
    cacheC8.organizers ≠ [] ∧
    (refresh_all_data dbC6 allFetchesFail).tickets = [] ∧
    (refresh_all_data cacheC8 allFetchesFail).organizers = [] := by
  refine ⟨?_, ?_, ?_, ?_⟩ <;> decide

/-- Claim C7 as amended: on a per-table fetch failure the table's
in-memory snapshot is cleared to the empty collection, not retained; on a
successful fetch it is replaced by the fetched rows.  Only the in-memory
log list is stale-but-available: it survives a failed (or empty) log
fetch unchanged. -/
theorem refresh_failure_behavior (cache : DbState) (f : FetchOutcomes) :
    (f.organizersF = FetchResult.failure →
      (refresh_all_data cache f).organizers = []) ∧
    (f.venuesF = FetchResult.failure → (refresh_all_data cache f).venues = []) ∧
    (f.eventsF = FetchResult.failure → (refresh_all_data cache f).events = []) ∧
    (f.ticketsF = FetchResult.failure → (refresh_all_data cache f).tickets = []) ∧
    (f.paymentsF = FetchResult.failure → (refresh_all_data cache f).payments = []) ∧
    (f.volunteersF = FetchResult.failure →
      (refresh_all_data cache f).volunteers = []) ∧
    (f.sponsorsF = FetchResult.failure → (refresh_all_data cache f).sponsors = []) ∧
    (f.participantsF = FetchResult.failure →
      (refresh_all_data cache f).participants = []) ∧
    (∀ rows, f.organizersF = FetchResult.success rows →
      (refresh_all_data cache f).organizers = rows) ∧
    (f.logsF = FetchResult.failure → (refresh_all_data cache f).logs = cache.logs) := by
  refine ⟨?_, ?_, ?_, ?_, ?_, ?_, ?_, ?_, ?_, ?_⟩
  · intro h; simp [refresh_all_data, h, FetchResult.toRows]
  · intro h; simp [refresh_all_data, h, FetchResult.toRows]
  · intro h; simp [refresh_all_data, h, FetchResult.toRows]
  · intro h; simp [refresh_all_data, h, FetchResult.toRows]
  · intro h; simp [refresh_all_data, h, FetchResult.toRows]
  · intro h; simp [refresh_all_data, h, FetchResult.toRows]
  · intro h; simp [refresh_all_data, h, FetchResult.toRows]
  · intro h; simp [refresh_all_data, h, FetchResult.toRows]
  · intro rows h; simp [refresh_all_data, h, FetchResult.toRows]
  · intro h; simp [refresh_all_data, h, FetchResult.toRows]

/-- Witness for the amended C7: with every fetch failing, the previously
cached ticket list comes back empty while the log list survives. -/
theorem refresh_failure_behavior_witness :
    (refresh_all_data dbC2 allFetchesFail).tickets = [] ∧
    (refresh_all_data dbC2 allFetchesFail).logs = dbC2.logs := by
  have h := refresh_failure_behavior dbC2 allFetchesFail
  exact ⟨h.2.2.2.1 rfl, h.2.2.2.2.2.2.2.2.2 rfl⟩

/-- `Database.mark_ticket_as_pending`.  The stored procedure
`SP_MarkTicketAsPending` and the manual fallback perform the same
unconditional `UPDATE Ticket SET Status='Pending' WHERE Ticket_id=%s`
and build the same message, so one function models both paths;
`storage_ok = false` is the fallback's failing `execute_query`, which
yields the error message and leaves the state alone. -/
def mark_ticket_as_pending (db : DbState) (ticket_id : Int)
    (storage_ok : Bool) : String × DbState :=
  if storage_ok then
    ("Ticket " ++ toString ticket_id ++ " status set to Pending.",
      setTicketStatus db ticket_id "Pending")
  else
    ("Error: Could not update ticket " ++ toString ticket_id, db)

/-- A status update aimed at an absent ticket id changes nothing. -/
theorem setTicketStatus_absent (l : List Ticket) (ticket_id : Int) (s : String)
    (h : ∀ t ∈ l, t.Ticket_id ≠ ticket_id) :
    l.map (fun t => if t.Ticket_id == ticket_id then { t with Status := s } else t)
      = l := by
  induction l with
  | nil => rfl
  | cons a l ih =>
    have ha : ¬((a.Ticket_id == ticket_id) = true) := by
      simpa using h a (List.mem_cons_self a l)
    rw [List.map_cons, if_neg ha, ih (fun t ht => h t (List.mem_cons_of_mem a ht))]

/-- Claim C10: `mark_ticket_as_pending` applies no precondition.  Whenever
the update executes without a storage error it reports success — for any
ticket id, including ids with no ticket and tickets in the terminal states
Confirmed or Cancelled; every row with the id is forced to Pending, no row
is added or removed, and a nonexistent id still yields the success
message with the state unchanged (never a not-found report). -/
theorem mark_ticket_as_pending_unconditional (db : DbState) (ticket_id : Int) :
    (mark_ticket_as_pending db ticket_id true).1 =
      "Ticket " ++ toString ticket_id ++ " status set to Pending." ∧
    (∀ x ∈ (mark_ticket_as_pending db ticket_id true).2.tickets,
      x.Ticket_id = ticket_id → x.Status = "Pending") ∧
    (mark_ticket_as_pending db ticket_id true).2.tickets.length =
      db.tickets.length ∧
    ((∀ t ∈ db.tickets, t.Ticket_id ≠ ticket_id) →
      (mark_ticket_as_pending db ticket_id true).2 = db) ∧
    (mark_ticket_as_pending db ticket_id false).2 = db := by
  refine ⟨rfl, ?_, ?_, ?_, rfl⟩
  · intro x hx hid
    exact setTicketStatus_mem_status db ticket_id "Pending" x hx hid
  · simp [mark_ticket_as_pending, setTicketStatus]
  · intro hnone
    show setTicketStatus db ticket_id "Pending" = db
    rw [setTicketStatus, setTicketStatus_absent db.tickets ticket_id "Pending" hnone]

/-- Witness for C10: marking the Cancelled ticket of `dbC4` and a
nonexistent id both report success; the terminal state is overwritten and
the missing id leaves the state unchanged. -/
theorem mark_ticket_as_pending_unconditional_witness :
    (mark_ticket_as_pending dbC4 7 true).1 = "Ticket 7 status set to Pending." ∧
    (mark_ticket_as_pending dbC4 7 true).2.tickets = [⟨7, 10, 1, "Pending", 25⟩] ∧
    (mark_ticket_as_pending dbC4 99 true).1 = "Ticket 99 status set to Pending." ∧
    (mark_ticket_as_pending dbC4 99 true).2 = dbC4 := by
  have h7 := mark_ticket_as_pending_unconditional dbC4 7
  have h99 := mark_ticket_as_pending_unconditional dbC4 99
  exact ⟨h7.1, by decide, h99.1, h99.2.2.2.1 (by decide)⟩

end EMS
